import Mathlib

/-!
# The `c_pci_dev` peripheral and its driver

A shallow embedding of

* `src/qemu/custom_pci_dev.c`: the QEMU device model (arithmetic window on
  BAR 0, scratch-memory window on BAR 1, interrupt-latch window on BAR 2);
* `src/kernel/qemu_pci_driver/c_pci_qemu_driver.c`: the Linux driver
  (`_probe` smoke test, `_dma_transfer`, `_read`, `_write`).

Machine integers are `Nat`/`Int` with explicit reduction: `uint32_t` values
are naturals below `2^32`, `uint64_t`/`size_t`/`hwaddr` values naturals below
`2^64`, `int` and `loff_t` are integers reduced to the signed 32/64-bit range
(the kernel is built with wrapping signed arithmetic).  An operation whose C
behaviour is undefined (division by zero, an access outside `_dma_bar`)
returns `none`.
-/

set_option linter.unusedVariables false

namespace CPciDev

/-! ## Constants of both source files -/

def REG_OP1 : Nat := 0x10
def REG_OP2 : Nat := 0x14
def REG_OPCODE : Nat := 0x18
def REG_RESULT : Nat := 0x20
def REG_ERROR : Nat := 0x24
def OPCODE_ADD : Nat := 0x00
def OPCODE_MUL : Nat := 0x01
def OPCODE_DIV : Nat := 0x02
def OPCODE_SUB : Nat := 0x03
def DMA_BAR_SIZE : Nat := 4096

def DMA_REG_CMD : Nat := 0x00
def DMA_REG_SRC : Nat := 0x04
def DMA_REG_DST : Nat := 0x08
def DMA_REG_LEN : Nat := 0x0C
def DMA_CMD_RUN : Nat := 1
def DMA_DIRECTION_TO_DEVICE : Nat := 0
def DMA_DIRECTION_FROM_DEVICE : Nat := 1

/-! ## Machine integers -/

/-- Conversion of an integer to `uint32_t`. -/
def toU32 (x : Int) : Nat := (x % 4294967296).toNat

/-- Conversion of an integer to `uint64_t` (`size_t`, `unsigned long`, `dma_addr_t`). -/
def toU64 (x : Int) : Nat := (x % 18446744073709551616).toNat

/-- Conversion of an integer to `int` (two's complement, 32 bits). -/
def toS32 (x : Int) : Int := (x + 2147483648) % 4294967296 - 2147483648

/-- Conversion of an integer to `loff_t`/`ssize_t` (two's complement, 64 bits). -/
def toS64 (x : Int) : Int :=
  (x + 9223372036854775808) % 18446744073709551616 - 9223372036854775808

/-- The value `~0ULL`. -/
def ALL_ONES_64 : Nat := 18446744073709551615

/-- The literal `0xffffffffffffffL` returned by the scratch and latch read handlers
(fourteen hexadecimal digits). -/
def SENTINEL_56 : Nat := 0xffffffffffffff

/-! ## Device model (`custom_pci_dev.c`) -/

/-- The fields of `struct _pci_device_object` that the handlers use, and the level of the
PCI interrupt pin that `pci_set_irq` drives. -/
structure DevState where
  _dma_bar : List Nat
  _set_irq : Bool
  _operand_1 : Nat
  _operand_2 : Nat
  _opcode : Nat
  _result : Nat
  _error : Nat
  irq_level : Nat
  deriving DecidableEq, Repr

/-- The read handler of the arithmetic window: `(value returned, state after)`.
`none` is the undefined division by zero. -/
def _pci_dev_mmio_read (s : DevState) (addr : Nat) (size : Nat) : Option (Nat × DevState) :=
  let res := ALL_ONES_64
  if addr = 0x00 then some (res, s)
  else if addr = REG_OP1 then some (s._operand_1, s)
  else if addr = REG_OP2 then some (s._operand_2, s)
  else if addr = REG_OPCODE then some (s._opcode, s)
  else if addr = REG_RESULT then
    if s._opcode = OPCODE_ADD then
      let s1 := { s with _result := (s._operand_1 + s._operand_2) % 4294967296 }
      some (s1._result, s1)
    else if s._opcode = OPCODE_SUB then
      let s1 := { s with _result := (s._operand_1 + 4294967296 - s._operand_2) % 4294967296 }
      some (s1._result, s1)
    else if s._opcode = OPCODE_DIV then
      if s._operand_2 = 0 then none
      else
        let s1 := { s with _result := s._operand_1 / s._operand_2 }
        some (s1._result, s1)
    else if s._opcode = OPCODE_MUL then
      let s1 := { s with _result := (s._operand_1 * s._operand_2) % 4294967296 }
      some (s1._result, s1)
    else
      let s1 := { s with _result := 0x00, _error := 0x01 }
      some (s1._result, s1)
  else if addr = REG_ERROR then some (s._error, s)
  else some (res, s)

/-- The write handler of the arithmetic window; `val` is a `uint64_t`, stored into a
`uint32_t` field. -/
def _pci_dev_mmio_write (s : DevState) (addr : Nat) (val : Nat) (size : Nat) : DevState :=
  if addr = REG_OP1 then { s with _operand_1 := val % 4294967296 }
  else if addr = REG_OP2 then { s with _operand_2 := val % 4294967296 }
  else if addr = REG_OPCODE then { s with _opcode := val % 4294967296 }
  else s

/-- Little-endian value of a list of bytes (the host is little-endian and the regions
are `DEVICE_NATIVE_ENDIAN`). -/
def le_value : List Nat → Nat
  | [] => 0
  | b :: bs => b + 256 * le_value bs

/-- The `n` little-endian bytes of `v` (a store through a `uintN_t *`). -/
def le_bytes : Nat → Nat → List Nat
  | 0, _ => []
  | n + 1, v => v % 256 :: le_bytes n (v / 256)

/-- Overwrite `bs.length` bytes of `mem` starting at index `a`. -/
def store_bytes (mem : List Nat) (a : Nat) (bs : List Nat) : List Nat :=
  mem.take a ++ bs ++ mem.drop (a + bs.length)

/-- The read handler of the scratch-memory window.  `none` is an access outside
`_dma_bar`. -/
def _pci_dev_dma_mmio_read (s : DevState) (addr : Nat) (size : Nat) : Option (Nat × DevState) :=
  if size = 1 ∨ size = 2 ∨ size = 4 ∨ size = 8 then
    if addr + size ≤ s._dma_bar.length then
      some (le_value ((s._dma_bar.drop addr).take size), s)
    else none
  else some (SENTINEL_56, s)

/-- The write handler of the scratch-memory window.  `none` is an access outside
`_dma_bar`. -/
def _pci_dev_dma_mmio_write (s : DevState) (addr : Nat) (val : Nat) (size : Nat) :
    Option DevState :=
  if size = 1 ∨ size = 2 ∨ size = 4 ∨ size = 8 then
    if addr + size ≤ s._dma_bar.length then
      some { s with _dma_bar := store_bytes s._dma_bar addr (le_bytes size val) }
    else none
  else some s

/-- The read handler of the interrupt-latch window. -/
def _pci_dev_irq_mmio_read (s : DevState) (addr : Nat) (size : Nat) : Nat × DevState :=
  if s._set_irq = true then (0, { s with _set_irq := false })
  else (SENTINEL_56, s)

/-- The write handler of the interrupt-latch window; `pci_set_irq (.., 1)` raises the pin. -/
def _pci_dev_irq_mmio_write (s : DevState) (addr : Nat) (val : Nat) (size : Nat) : DevState :=
  { s with _set_irq := true, irq_level := 1 }

/-- The state that `_pci_dev_realize` establishes (after `msi_init` succeeded). -/
def _pci_dev_realize (s : DevState) : DevState :=
  { s with
    _dma_bar := List.replicate DMA_BAR_SIZE 0
    _operand_1 := 0x02
    _operand_2 := 0x04
    _opcode := 0xAA
    _result := 0xBB
    _error := 0x00
    _set_irq := false }

/-! ## Driver (`c_pci_qemu_driver.c`), running against the device model -/

/-- The three PCI regions, numbered as `pci_register_bar` registers them in
`_pci_dev_realize`: 0 is `_mmio`, 1 is `_dma_region`, 2 is `_irq_mmio`. -/
inductive Bar where
  | bar0
  | bar1
  | bar2
  deriving DecidableEq, Repr

/-- One `iowrite32`: the region, the byte offset inside it, the 32-bit value. -/
structure IoWrite where
  bar : Bar
  reg : Nat
  val : Nat
  deriving DecidableEq, Repr

/-- The device together with the log of the register writes the driver has issued. -/
structure World where
  dev : DevState
  trace : List IoWrite
  deriving DecidableEq, Repr

/-- A write transaction on a region reaches the `.write` callback of its
`MemoryRegionOps`. -/
def region_write (b : Bar) (s : DevState) (addr val size : Nat) : Option DevState :=
  match b with
  | .bar0 => some (_pci_dev_mmio_write s addr val size)
  | .bar1 => _pci_dev_dma_mmio_write s addr val size
  | .bar2 => some (_pci_dev_irq_mmio_write s addr val size)

/-- A read transaction on a region reaches the `.read` callback of its
`MemoryRegionOps`. -/
def region_read (b : Bar) (s : DevState) (addr size : Nat) : Option (Nat × DevState) :=
  match b with
  | .bar0 => _pci_dev_mmio_read s addr size
  | .bar1 => _pci_dev_dma_mmio_read s addr size
  | .bar2 => some (_pci_dev_irq_mmio_read s addr size)

/-- The kernel accessor `iowrite32 (val, bar_ptr + reg)`: a 4-byte write of the `u32`
value `val`. -/
def iowrite32 (val : Nat) (b : Bar) (reg : Nat) (w : World) : Option World :=
  match region_write b w.dev reg (val % 4294967296) 4 with
  | none => none
  | some d => some { dev := d, trace := w.trace ++ [{ bar := b, reg := reg, val := val % 4294967296 }] }

/-- The kernel accessor `ioread32 (bar_ptr + reg)`: a 4-byte read, the low 32 bits of what
the handler returns. -/
def ioread32 (b : Bar) (reg : Nat) (w : World) : Option (Nat × World) :=
  match region_read b w.dev reg 4 with
  | none => none
  | some (v, d) => some (v % 4294967296, { w with dev := d })

/-- Step 3 of `_probe` ("Test math operators"): the value that `pr_info` prints. -/
def _probe_math_test (w : World) : Option (Nat × World) :=
  match iowrite32 1 .bar0 REG_OP1 w with
  | none => none
  | some w1 =>
    match iowrite32 2 .bar0 REG_OP2 w1 with
    | none => none
    | some w2 =>
      match iowrite32 OPCODE_ADD .bar0 REG_OPCODE w2 with
      | none => none
      | some w3 => ioread32 .bar0 REG_RESULT w3

/-- The function `_dma_transfer`: `(return value, world after)`.  `buffer_dma_addr` is
what `dma_map_single` returned for the buffer, `len` an `int`, `address` a `dma_addr_t`,
`dir` a `uint8_t`.  Every `iowrite32` goes through `bar_2_ptr`.  The last branch is
`goto exit`, which skips the command write. -/
def _dma_transfer (w : World) (buffer_dma_addr : Nat) (len : Int) (address : Nat) (dir : Nat) :
    Option (Int × World) :=
  match iowrite32 (toU32 len) .bar2 DMA_REG_LEN w with
  | none => none
  | some w1 =>
    if dir = DMA_DIRECTION_FROM_DEVICE then
      match iowrite32 buffer_dma_addr .bar2 DMA_REG_DST w1 with
      | none => none
      | some w2 =>
        match iowrite32 address .bar2 DMA_REG_SRC w2 with
        | none => none
        | some w3 =>
          match iowrite32 (DMA_CMD_RUN ||| (dir <<< 1)) .bar2 DMA_REG_CMD w3 with
          | none => none
          | some w4 => some (0, w4)
    else if dir = DMA_DIRECTION_TO_DEVICE then
      match iowrite32 buffer_dma_addr .bar2 DMA_REG_SRC w1 with
      | none => none
      | some w2 =>
        match iowrite32 address .bar2 DMA_REG_DST w2 with
        | none => none
        | some w3 =>
          match iowrite32 (DMA_CMD_RUN ||| (dir <<< 1)) .bar2 DMA_REG_CMD w3 with
          | none => none
          | some w4 => some (0, w4)
    else some (0, w1)

/-- The value of `pci_resource_len (_dev._dev, 1)`: the size the device gives region 1. -/
def pci_resource_len_bar1 : Nat := DMA_BAR_SIZE

/-- The `if`/`else` that opens both `_read` and `_write`: the `int user_len` computed
from the `size_t size` and the `loff_t *offset`.  The sum and the difference are
`unsigned long` operations, the assignment converts to `int`. -/
def clamp_user_len (size : Nat) (offset : Int) : Int :=
  if toU64 ((size : Int) + offset) < pci_resource_len_bar1 then toS32 (size : Int)
  else toS32 ((pci_resource_len_bar1 : Int) - offset)

/-- What a call of `_read` or `_write` leaves behind. -/
structure IoResult where
  ret : Int
  offset : Int
  user_len : Int
  data : List Nat
  world : World
  deriving DecidableEq, Repr

/-- The contract of the kernel's `copy_to_user`/`copy_from_user (.., n)`, whose result
`k` is the number of bytes NOT copied: at most `n`, and a count above `INT_MAX` is
refused whole. -/
def user_copy_ok (n k : Nat) : Prop := k ≤ n ∧ (2147483648 ≤ n → k = n)

instance (n k : Nat) : Decidable (user_copy_ok n k) := by
  unfold user_copy_ok; infer_instance

/-- The file operation `_read`.  `size` and `offset` are the arguments (`*offset` before
the call); `kbuf` is the content of the buffer `kmalloc` returned, `buffer_dma_addr`
the result of `dma_map_single`, `not_copied` the result of `copy_to_user`.  No handler
of the device model touches guest memory, so the buffer still holds `kbuf` when it is
copied out.  In the result, `data` is what reached the caller's buffer `p`, `user_len`
the length that was passed to `_dma_transfer`. -/
def _read (w : World) (size : Nat) (offset : Int) (kbuf : List Nat) (buffer_dma_addr : Nat)
    (not_copied : Nat) : Option IoResult :=
  let user_len := clamp_user_len size offset
  match _dma_transfer w buffer_dma_addr user_len (toU64 offset) DMA_DIRECTION_FROM_DEVICE with
  | none => none
  | some (_, w1) =>
    let number_of_byte_not_transferred := toS32 (not_copied : Int)
    let n := toS32 (user_len - number_of_byte_not_transferred)
    some { ret := n
           offset := toS64 (offset + n)
           user_len := user_len
           data := kbuf.take (toU64 user_len - not_copied)
           world := w1 }

/-- The file operation `_write`.  `p` is the content of the caller's buffer,
`not_copied` the result of `copy_from_user`.  In the result, `data` is what was copied
into the kernel buffer, `user_len` the length that was passed to `_dma_transfer`. -/
def _write (w : World) (p : List Nat) (size : Nat) (offset : Int) (buffer_dma_addr : Nat)
    (not_copied : Nat) : Option IoResult :=
  let user_len0 := clamp_user_len size offset
  let number_of_byte_not_transferred := toS32 (not_copied : Int)
  let user_len := toS32 (user_len0 - number_of_byte_not_transferred)
  match _dma_transfer w buffer_dma_addr user_len (toU64 offset) DMA_DIRECTION_TO_DEVICE with
  | none => none
  | some (_, w1) =>
    some { ret := user_len
           offset := toS64 (offset + user_len)
           user_len := user_len
           data := p.take (toU64 user_len0 - not_copied)
           world := w1 }

/-- The device right after `_pci_dev_realize`, with no register write issued yet. -/
def reset_world : World :=
  { dev := _pci_dev_realize
      { _dma_bar := [], _set_irq := false, _operand_1 := 0, _operand_2 := 0, _opcode := 0,
        _result := 0, _error := 0, irq_level := 0 }
    trace := [] }

/-! ## Auxiliary definitions used in the statements -/

/-- Programming the three writable registers: `a` to `REG_OP1`, `b` to `REG_OP2`, `op` to
`REG_OPCODE`, each with its own access width. -/
def program (s : DevState) (a b op z1 z2 z3 : Nat) : DevState :=
  _pci_dev_mmio_write (_pci_dev_mmio_write (_pci_dev_mmio_write s REG_OP1 a z1) REG_OP2 b z2)
    REG_OPCODE op z3

/-- The device state after any number of register writes through `bar_2_ptr`. -/
def latched (s : DevState) : DevState := { s with _set_irq := true, irq_level := 1 }

/-- The four register writes of a transfer in direction 1 (device to host), as
`(region, offset, 32-bit value)`. -/
def writes_from_device (dma : Nat) (len : Int) (address : Nat) : List IoWrite :=
  [{ bar := .bar2, reg := 0x0C, val := toU32 len },
   { bar := .bar2, reg := 0x08, val := dma % 4294967296 },
   { bar := .bar2, reg := 0x04, val := address % 4294967296 },
   { bar := .bar2, reg := 0x00, val := 3 }]

/-- The four register writes of a transfer in direction 0 (host to device). -/
def writes_to_device (dma : Nat) (len : Int) (address : Nat) : List IoWrite :=
  [{ bar := .bar2, reg := 0x0C, val := toU32 len },
   { bar := .bar2, reg := 0x04, val := dma % 4294967296 },
   { bar := .bar2, reg := 0x08, val := address % 4294967296 },
   { bar := .bar2, reg := 0x00, val := 1 }]

/-- The file operation `_mmap`, as a function of the `int` that `io_remap_pfn_range`
returned: a non-zero result is negated (`res = -res`) before it is returned. -/
def _mmap (remap_result : Int) : Int :=
  if remap_result ≠ 0 then toS32 (-remap_result) else remap_result

/-- One transaction on one of the three windows of the device. -/
inductive Txn where
  | mmio_read (addr size : Nat)
  | mmio_write (addr val size : Nat)
  | dma_read (addr size : Nat)
  | dma_write (addr val size : Nat)
  | irq_read (addr size : Nat)
  | irq_write (addr val size : Nat)
  deriving DecidableEq, Repr

/-- The device state after one transaction (`none` when the handler's behaviour is
undefined). -/
def step (s : DevState) : Txn → Option DevState
  | .mmio_read a z => (_pci_dev_mmio_read s a z).map Prod.snd
  | .mmio_write a v z => some (_pci_dev_mmio_write s a v z)
  | .dma_read a z => (_pci_dev_dma_mmio_read s a z).map Prod.snd
  | .dma_write a v z => _pci_dev_dma_mmio_write s a v z
  | .irq_read a z => some (_pci_dev_irq_mmio_read s a z).2
  | .irq_write a v z => some (_pci_dev_irq_mmio_write s a v z)

/-- The device state after a sequence of transactions. -/
def run (s : DevState) : List Txn → Option DevState
  | [] => some s
  | t :: ts => (step s t).bind (fun s1 => run s1 ts)

/-- An opcode value other than the four that the result read recognises. -/
def unrecognised (op : Nat) : Bool :=
  decide (op ≠ OPCODE_ADD ∧ op ≠ OPCODE_SUB ∧ op ≠ OPCODE_DIV ∧ op ≠ OPCODE_MUL)

/-- Whether the transaction is a read of the result register in a state whose opcode is
unrecognised. -/
def is_bad_result_read (s : DevState) : Txn → Bool
  | .mmio_read a _ => decide (a = REG_RESULT) && unrecognised s._opcode
  | _ => false

/-- Whether some transaction of the sequence, run from `s`, is a read of the result
register under an unrecognised opcode. -/
def bad_result_read (s : DevState) : List Txn → Bool
  | [] => false
  | t :: ts =>
    is_bad_result_read s t ||
      (match step s t with
       | some s1 => bad_result_read s1 ts
       | none => false)

/-- A read of the interrupt-latch window. -/
def is_latch_read : Txn → Bool
  | .irq_read _ _ => true
  | _ => false

/-- A write to the interrupt-latch window. -/
def is_latch_write : Txn → Bool
  | .irq_write _ _ _ => true
  | _ => false

/-- The pending flag as the latch transactions of a sequence determine it, starting from
the flag `b`: a latch write sets it, a latch read clears it, nothing else touches it. -/
def pending_after (b : Bool) : List Txn → Bool
  | [] => b
  | t :: ts =>
    pending_after (if is_latch_write t then true else if is_latch_read t then false else b) ts

/-- A burst of latch writes, each with its own address, value and width. -/
def latch_writes (s : DevState) (ws : List (Nat × Nat × Nat)) : DevState :=
  ws.foldl (fun d x => _pci_dev_irq_mmio_write d x.1 x.2.1 x.2.2) s

/-! ## Arithmetic window -/

/-- C1: with 32-bit operands `a`, `b` written to 0x10 and 0x14 and the opcode written to
0x18, a read at 0x20 returns the sum, the difference and the product reduced to 32 bits
for the opcodes 0x00, 0x03 and 0x01, and the quotient `a / b` for 0x02 when `b` is not
zero; the smoke test of `_probe` reads 3 from any device state. -/
theorem C1_result_is_exact (s : DevState) (a b z1 z2 z3 z : Nat)
    (ha : a < 4294967296) (hb : b < 4294967296) :
    (_pci_dev_mmio_read (program s a b 0x00 z1 z2 z3) 0x20 z).map Prod.fst
        = some (toU32 ((a : Int) + (b : Int))) ∧
    (_pci_dev_mmio_read (program s a b 0x03 z1 z2 z3) 0x20 z).map Prod.fst
        = some (toU32 ((a : Int) - (b : Int))) ∧
    (_pci_dev_mmio_read (program s a b 0x01 z1 z2 z3) 0x20 z).map Prod.fst
        = some (toU32 ((a : Int) * (b : Int))) ∧
    (b ≠ 0 → (_pci_dev_mmio_read (program s a b 0x02 z1 z2 z3) 0x20 z).map Prod.fst
        = some (a / b)) ∧
    (∀ w : World, (_probe_math_test w).map Prod.fst = some 3) := by
  have ea : a % 4294967296 = a := Nat.mod_eq_of_lt ha
  have eb : b % 4294967296 = b := Nat.mod_eq_of_lt hb
  refine ⟨?_, ?_, ?_, ?_, ?_⟩
  · simp [program, _pci_dev_mmio_read, _pci_dev_mmio_write, REG_OP1, REG_OP2, REG_OPCODE,
      REG_RESULT, OPCODE_ADD, ea, eb, toU32]
    omega
  · simp [program, _pci_dev_mmio_read, _pci_dev_mmio_write, REG_OP1, REG_OP2, REG_OPCODE,
      REG_RESULT, OPCODE_ADD, OPCODE_SUB, ea, eb, toU32]
    omega
  · simp [program, _pci_dev_mmio_read, _pci_dev_mmio_write, REG_OP1, REG_OP2, REG_OPCODE,
      REG_RESULT, OPCODE_ADD, OPCODE_SUB, OPCODE_DIV, OPCODE_MUL, ea, eb, toU32]
    have h : ((a : Int) * (b : Int)) % 4294967296 = ((a * b % 4294967296 : Nat) : Int) := by
      push_cast; rfl
    rw [h, Int.toNat_ofNat]
  · intro hb0
    simp [program, _pci_dev_mmio_read, _pci_dev_mmio_write, REG_OP1, REG_OP2, REG_OPCODE,
      REG_RESULT, OPCODE_ADD, OPCODE_SUB, OPCODE_DIV, ea, eb, hb0]
  · intro w
    simp [_probe_math_test, iowrite32, ioread32, region_write, region_read, _pci_dev_mmio_read,
      _pci_dev_mmio_write, REG_OP1, REG_OP2, REG_OPCODE, REG_RESULT, OPCODE_ADD]

/-- C1, instance: operands 1 and 2 with the opcode add, as `_probe` programs them. -/
theorem C1_result_is_exact_witness :
    (_pci_dev_mmio_read (program reset_world.dev 1 2 0x00 4 4 4) 0x20 4).map Prod.fst
      = some (toU32 ((1 : Nat) + (2 : Nat) : Int)) :=
  (C1_result_is_exact reset_world.dev 1 2 4 4 4 4 (by decide) (by decide)).1

/-- C2: when the opcode register holds a value other than 0, 1, 2 and 3, a read at 0x20
returns 0 and the read at 0x24 that follows returns 1, whatever the operands are. -/
theorem C2_invalid_opcode (s : DevState) (z z' : Nat)
    (h0 : s._opcode ≠ 0x00) (h1 : s._opcode ≠ 0x01) (h2 : s._opcode ≠ 0x02)
    (h3 : s._opcode ≠ 0x03) :
    _pci_dev_mmio_read s 0x20 z = some (0, { s with _result := 0, _error := 1 }) ∧
    _pci_dev_mmio_read { s with _result := 0, _error := 1 } 0x24 z'
      = some (1, { s with _result := 0, _error := 1 }) := by
  constructor
  · simp [_pci_dev_mmio_read, REG_OP1, REG_OP2, REG_OPCODE, REG_RESULT, OPCODE_ADD, OPCODE_SUB,
      OPCODE_DIV, OPCODE_MUL, h0, h1, h2, h3]
  · simp [_pci_dev_mmio_read, REG_OP1, REG_OP2, REG_OPCODE, REG_RESULT, REG_ERROR]

/-- C2, instance: the reset state, whose opcode register holds 0xAA. -/
theorem C2_invalid_opcode_witness :
    _pci_dev_mmio_read reset_world.dev 0x20 4
      = some (0, { reset_world.dev with _result := 0, _error := 1 }) ∧
    _pci_dev_mmio_read { reset_world.dev with _result := 0, _error := 1 } 0x24 4
      = some (1, { reset_world.dev with _result := 0, _error := 1 }) :=
  C2_invalid_opcode reset_world.dev 4 4 (by decide) (by decide) (by decide) (by decide)

/-! ## Interrupt latch -/

/-- C4: from any state, a write to the interrupt window followed by two reads of it gives
0 on the first read and the non-zero value `0xffffffffffffff` on the second, for any
addresses, written value and access widths. -/
theorem C4_latch_edge_consumed (s : DevState) (a v z a1 z1 a2 z2 : Nat) :
    (_pci_dev_irq_mmio_read (_pci_dev_irq_mmio_write s a v z) a1 z1).1 = 0 ∧
    (_pci_dev_irq_mmio_read (_pci_dev_irq_mmio_read (_pci_dev_irq_mmio_write s a v z) a1 z1).2
        a2 z2).1 = 0xffffffffffffff ∧
    (_pci_dev_irq_mmio_read (_pci_dev_irq_mmio_read (_pci_dev_irq_mmio_write s a v z) a1 z1).2
        a2 z2).1 ≠ 0 := by
  simp [_pci_dev_irq_mmio_read, _pci_dev_irq_mmio_write, SENTINEL_56]

/-! ## The DMA programming sequence of the driver -/

/-- A register write through `bar_2_ptr` always completes: it lands in the write handler
of the interrupt-latch window. -/
theorem iowrite32_bar2 (v reg : Nat) (w : World) :
    iowrite32 v .bar2 reg w
      = some { dev := { w.dev with _set_irq := true, irq_level := 1 }
               trace := w.trace ++ [{ bar := .bar2, reg := reg, val := v % 4294967296 }] } := by
  simp [iowrite32, region_write, _pci_dev_irq_mmio_write]

/-- Closed form of `_dma_transfer` for direction 1 (device to host). -/
theorem dma_transfer_from_device (w : World) (dma : Nat) (len : Int) (address : Nat) :
    _dma_transfer w dma len address 1
      = some (0, { dev := latched w.dev
                   trace := w.trace ++ writes_from_device dma len address }) := by
  have h : toU32 len % 4294967296 = toU32 len := by
    unfold toU32; omega
  simp [_dma_transfer, iowrite32_bar2, latched, writes_from_device, DMA_REG_LEN, DMA_REG_DST,
    DMA_REG_SRC, DMA_REG_CMD, DMA_CMD_RUN, DMA_DIRECTION_FROM_DEVICE, h]

/-- Closed form of `_dma_transfer` for direction 0 (host to device). -/
theorem dma_transfer_to_device (w : World) (dma : Nat) (len : Int) (address : Nat) :
    _dma_transfer w dma len address 0
      = some (0, { dev := latched w.dev
                   trace := w.trace ++ writes_to_device dma len address }) := by
  have h : toU32 len % 4294967296 = toU32 len := by
    unfold toU32; omega
  simp [_dma_transfer, iowrite32_bar2, latched, writes_to_device, DMA_REG_LEN, DMA_REG_DST,
    DMA_REG_SRC, DMA_REG_CMD, DMA_CMD_RUN, DMA_DIRECTION_FROM_DEVICE, DMA_DIRECTION_TO_DEVICE, h]

/-- Closed form of `_dma_transfer` for a direction other than 0 and 1: only the length
register is written. -/
theorem dma_transfer_other (w : World) (dma : Nat) (len : Int) (address dir : Nat)
    (h1 : dir ≠ 1) (h0 : dir ≠ 0) :
    _dma_transfer w dma len address dir
      = some (0, { dev := latched w.dev
                   trace := w.trace ++ [{ bar := .bar2, reg := 0x0C, val := toU32 len }] }) := by
  have h : toU32 len % 4294967296 = toU32 len := by
    unfold toU32; omega
  simp [_dma_transfer, iowrite32_bar2, latched, DMA_REG_LEN,
    DMA_DIRECTION_FROM_DEVICE, DMA_DIRECTION_TO_DEVICE, h, h1, h0]

/-- Closed form of `_read`: it always returns. -/
theorem read_eq (w : World) (size : Nat) (offset : Int) (kbuf : List Nat) (dma k : Nat) :
    _read w size offset kbuf dma k
      = some { ret := toS32 (clamp_user_len size offset - toS32 (k : Int))
               offset := toS64 (offset + toS32 (clamp_user_len size offset - toS32 (k : Int)))
               user_len := clamp_user_len size offset
               data := kbuf.take (toU64 (clamp_user_len size offset) - k)
               world :=
                 { dev := latched w.dev
                   trace := w.trace ++
                     writes_from_device dma (clamp_user_len size offset) (toU64 offset) } } := by
  simp [_read, DMA_DIRECTION_FROM_DEVICE, dma_transfer_from_device]

/-- Closed form of `_write`: it always returns. -/
theorem write_eq (w : World) (p : List Nat) (size : Nat) (offset : Int) (dma k : Nat) :
    _write w p size offset dma k
      = some { ret := toS32 (clamp_user_len size offset - toS32 (k : Int))
               offset := toS64 (offset + toS32 (clamp_user_len size offset - toS32 (k : Int)))
               user_len := toS32 (clamp_user_len size offset - toS32 (k : Int))
               data := p.take (toU64 (clamp_user_len size offset) - k)
               world :=
                 { dev := latched w.dev
                   trace := w.trace ++
                     writes_to_device dma
                       (toS32 (clamp_user_len size offset - toS32 (k : Int))) (toU64 offset) } } := by
  simp [_write, DMA_DIRECTION_TO_DEVICE, dma_transfer_to_device]

/-- Writing a `dma_addr_t` with `iowrite32` keeps its low 32 bits. -/
theorem toU64_mod_u32 (x : Int) : toU64 x % 4294967296 = toU32 x := by
  unfold toU64 toU32; omega

/-- C9: for direction 1 `_dma_transfer` writes, in this order, the length register 0x0C,
the destination register 0x08 with the buffer address, the source register 0x04 with the
device address, and last the command register 0x00 with 3 (run bit and direction bit);
for direction 0 it writes 0x0C, then 0x04 with the buffer address, then 0x08 with the
device address, and last 0x00 with 1 (run bit alone).  Each value is the 32 bits that
`iowrite32` writes.  `_read` issues the first sequence and `_write` the second, with
the stream offset as the device address. -/
theorem C9_dma_programming_sequence (w : World) (dma : Nat) (len : Int) (address : Nat)
    (p kbuf : List Nat) (size : Nat) (offset : Int) (k : Nat) :
    (_dma_transfer w dma len address 1).map (fun r => r.2.trace)
      = some (w.trace ++
          [{ bar := .bar2, reg := 0x0C, val := toU32 len },
           { bar := .bar2, reg := 0x08, val := dma % 4294967296 },
           { bar := .bar2, reg := 0x04, val := address % 4294967296 },
           { bar := .bar2, reg := 0x00, val := 1 ||| (1 <<< 1) }]) ∧
    (_dma_transfer w dma len address 0).map (fun r => r.2.trace)
      = some (w.trace ++
          [{ bar := .bar2, reg := 0x0C, val := toU32 len },
           { bar := .bar2, reg := 0x04, val := dma % 4294967296 },
           { bar := .bar2, reg := 0x08, val := address % 4294967296 },
           { bar := .bar2, reg := 0x00, val := 1 ||| (0 <<< 1) }]) ∧
    (_read w size offset kbuf dma k).map (fun r => r.world.trace)
      = some (w.trace ++
          [{ bar := .bar2, reg := 0x0C, val := toU32 (clamp_user_len size offset) },
           { bar := .bar2, reg := 0x08, val := dma % 4294967296 },
           { bar := .bar2, reg := 0x04, val := toU32 offset },
           { bar := .bar2, reg := 0x00, val := 3 }]) ∧
    (_write w p size offset dma k).map (fun r => r.world.trace)
      = some (w.trace ++
          [{ bar := .bar2, reg := 0x0C,
             val := toU32 (toS32 (clamp_user_len size offset - toS32 (k : Int))) },
           { bar := .bar2, reg := 0x04, val := dma % 4294967296 },
           { bar := .bar2, reg := 0x08, val := toU32 offset },
           { bar := .bar2, reg := 0x00, val := 1 }]) := by
  refine ⟨?_, ?_, ?_, ?_⟩
  · simp [dma_transfer_from_device, writes_from_device]
  · simp [dma_transfer_to_device, writes_to_device]
  · simp [read_eq, writes_from_device, toU64_mod_u32]
  · simp [write_eq, writes_to_device, toU64_mod_u32]

/-- For an offset inside the scratch buffer the computed length is the requested one cut
to the room that is left, as long as `size + offset` does not wrap. -/
theorem clamp_user_len_in_range (size : Nat) (offset : Int)
    (hsize : (size : Int) + offset < 18446744073709551616)
    (h0 : 0 ≤ offset) (h1 : offset ≤ 4096) :
    clamp_user_len size offset = min (size : Int) (4096 - offset) := by
  unfold clamp_user_len toU64 toS32 pci_resource_len_bar1 DMA_BAR_SIZE
  split <;> omega

/-- The arithmetic of one call that starts inside the scratch buffer. -/
theorem ret_bounds (size : Nat) (offset : Int) (k : Nat)
    (hsize : size < 18446744073709551616) (h0 : 0 ≤ offset) (h1 : offset ≤ 4096)
    (hk : user_copy_ok (toU64 (clamp_user_len size offset)) k) :
    0 ≤ toS32 (clamp_user_len size offset - toS32 (k : Int)) ∧
    toS32 (clamp_user_len size offset - toS32 (k : Int)) ≤ (size : Int) ∧
    toS64 (offset + toS32 (clamp_user_len size offset - toS32 (k : Int)))
      = offset + toS32 (clamp_user_len size offset - toS32 (k : Int)) ∧
    offset + toS32 (clamp_user_len size offset - toS32 (k : Int)) ≤ 4096 := by
  obtain ⟨hk1, hk2⟩ := hk
  revert hk1 hk2
  unfold clamp_user_len toU64 toS32 toS64 pci_resource_len_bar1 DMA_BAR_SIZE
  split <;> intro hk1 hk2 <;> omega

/-- The arithmetic of any call: what is returned, and the offset when the sum fits. -/
theorem ret_exact (size : Nat) (offset : Int) (k : Nat)
    (hlo : -9223372036854775808 ≤ offset)
    (hk : user_copy_ok (toU64 (clamp_user_len size offset)) k) :
    toS32 (clamp_user_len size offset - toS32 (k : Int))
      = clamp_user_len size offset - toS32 (k : Int) ∧
    toS32 (clamp_user_len size offset - toS32 (k : Int))
      = ((toU64 (clamp_user_len size offset) - k : Nat) : Int) ∧
    (offset + toS32 (clamp_user_len size offset - toS32 (k : Int)) ≤ 9223372036854775807 →
      toS64 (offset + toS32 (clamp_user_len size offset - toS32 (k : Int)))
        = offset + toS32 (clamp_user_len size offset - toS32 (k : Int))) := by
  obtain ⟨hk1, hk2⟩ := hk
  revert hk1 hk2
  unfold clamp_user_len toU64 toS32 toS64 pci_resource_len_bar1 DMA_BAR_SIZE
  split <;> intro hk1 hk2 <;> omega

/-- C3 (evaluation of the code): on the device after reset, `_write` of the one byte 1 at
offset 0 followed by `_read` of one byte at offset 0, with a transfer buffer that
`kmalloc` returned holding 0, delivers the byte 0 to the caller; both calls return 1,
and the scratch buffer of the device is what it was. -/
theorem C3_round_trip_evaluated :
    ((_write reset_world [1] 1 0 0x1000 0).bind
        (fun r => _read r.world 1 0 [0] 0x1000 0)).map IoResult.data = some [0] ∧
    (_write reset_world [1] 1 0 0x1000 0).map IoResult.ret = some 1 ∧
    ((_write reset_world [1] 1 0 0x1000 0).bind
        (fun r => _read r.world 1 0 [0] 0x1000 0)).map IoResult.ret = some 1 ∧
    ((_write reset_world [1] 1 0 0x1000 0).bind
        (fun r => _read r.world 1 0 [0] 0x1000 0)).map (fun r => r.world.dev._dma_bar)
      = some reset_world.dev._dma_bar := by
  simp only [write_eq, read_eq, Option.bind, Option.map, latched]
  refine ⟨?_, ?_, ?_, ?_⟩ <;> decide

/-- C5 (evaluation of the code): `_read` of 10 bytes at the offset
`4096 + 2^32 - 5 = 4294971387`, with a copy to the caller that succeeds, returns 5 bytes
and moves the offset forward by 5. -/
theorem C5_read_beyond_capacity_evaluated :
    (_read reset_world 10 4294971387 [0, 0, 0, 0, 0] 0x1000 0).map IoResult.ret = some 5 ∧
    (_read reset_world 10 4294971387 [0, 0, 0, 0, 0] 0x1000 0).map IoResult.offset
      = some 4294971392 ∧
    (_read reset_world 10 4294971387 [0, 0, 0, 0, 0] 0x1000 0).map IoResult.data
      = some [0, 0, 0, 0, 0] := by
  simp only [read_eq, Option.map]
  refine ⟨?_, ?_, ?_⟩ <;> decide

/-- C6 (evaluation of the code): for the requested length 1 at the offset 5000 both
functions compute the length -904, while `min 1 (max 0 (4096 - 5000))` is 0; `_read`
passes it to `_dma_transfer`, which writes it to the length register as 4294966392. -/
theorem C6_clamp_negative_evaluated :
    clamp_user_len 1 5000 = -904 ∧
    min (1 : Int) (max 0 (4096 - 5000)) = 0 ∧
    (_read reset_world 1 5000 [] 0x1000 18446744073709550712).map IoResult.user_len
      = some (-904) ∧
    (_read reset_world 1 5000 [] 0x1000 18446744073709550712).map (fun r => r.world.trace.head?)
      = some (some { bar := .bar2, reg := 0x0C, val := 4294966392 }) := by
  simp only [read_eq, Option.map, writes_from_device]
  refine ⟨?_, ?_, ?_, ?_⟩ <;> decide

/-- C7, counterexample: `_read` of 1 byte at the offset `2^63 - 2` returns 4098, and the
offset after the call is `-2^63 + 4096`, not the offset before plus 4098. -/
theorem C7_offset_advance_counterexample :
    (_read reset_world 1 9223372036854775806 (List.replicate 4098 0) 0x1000 0).map IoResult.ret
      = some 4098 ∧
    (_read reset_world 1 9223372036854775806 (List.replicate 4098 0) 0x1000 0).map
        IoResult.offset = some (-9223372036854771712) ∧
    (-9223372036854771712 : Int) ≠ 9223372036854775806 + 4098 ∧
    user_copy_ok (toU64 (clamp_user_len 1 9223372036854775806)) 0 := by
  simp only [read_eq, Option.map]
  refine ⟨?_, ?_, ?_, ?_⟩ <;> decide

/-- C7, amended: in every call of `_read` and of `_write` whose user copy obeys its
contract, the value returned is the clamped length minus the bytes the user copy left
uncopied, which is the number of bytes copied, and the stream offset after the call is
the offset before plus the value returned whenever that sum is at most `2^63 - 1`. -/
theorem C7_offset_advances_by_return (w : World) (p kbuf : List Nat) (size : Nat)
    (offset : Int) (dma kr kw : Nat)
    (hlo : -9223372036854775808 ≤ offset)
    (hr : user_copy_ok (toU64 (clamp_user_len size offset)) kr)
    (hw : user_copy_ok (toU64 (clamp_user_len size offset)) kw) :
    (∃ r, _read w size offset kbuf dma kr = some r ∧
      r.ret = clamp_user_len size offset - toS32 (kr : Int) ∧
      r.ret = ((toU64 (clamp_user_len size offset) - kr : Nat) : Int) ∧
      r.data = kbuf.take (toU64 (clamp_user_len size offset) - kr) ∧
      (offset + r.ret ≤ 9223372036854775807 → r.offset = offset + r.ret)) ∧
    (∃ r, _write w p size offset dma kw = some r ∧
      r.ret = clamp_user_len size offset - toS32 (kw : Int) ∧
      r.ret = ((toU64 (clamp_user_len size offset) - kw : Nat) : Int) ∧
      r.data = p.take (toU64 (clamp_user_len size offset) - kw) ∧
      (offset + r.ret ≤ 9223372036854775807 → r.offset = offset + r.ret)) := by
  obtain ⟨a1, a2, a3⟩ := ret_exact size offset kr hlo hr
  obtain ⟨b1, b2, b3⟩ := ret_exact size offset kw hlo hw
  exact ⟨⟨_, read_eq w size offset kbuf dma kr, a1, a2, rfl, a3⟩,
    ⟨_, write_eq w p size offset dma kw, b1, b2, rfl, b3⟩⟩

/-- C7, instance: 10 bytes asked at offset 0, three of them left uncopied; 7 is returned
and the offset becomes 7. -/
theorem C7_offset_advances_by_return_witness :
    (∃ r, _read reset_world 10 0 [1, 2, 3, 4, 5, 6, 7, 8, 9, 10] 0x1000 3 = some r ∧
      r.ret = clamp_user_len 10 0 - toS32 ((3 : Nat) : Int) ∧
      r.ret = ((toU64 (clamp_user_len 10 0) - 3 : Nat) : Int) ∧
      r.data = [1, 2, 3, 4, 5, 6, 7, 8, 9, 10].take (toU64 (clamp_user_len 10 0) - 3) ∧
      (0 + r.ret ≤ 9223372036854775807 → r.offset = 0 + r.ret)) ∧
    (∃ r, _write reset_world [1, 2, 3, 4, 5, 6, 7, 8, 9, 10] 10 0 0x1000 3 = some r ∧
      r.ret = clamp_user_len 10 0 - toS32 ((3 : Nat) : Int) ∧
      r.ret = ((toU64 (clamp_user_len 10 0) - 3 : Nat) : Int) ∧
      r.data = [1, 2, 3, 4, 5, 6, 7, 8, 9, 10].take (toU64 (clamp_user_len 10 0) - 3) ∧
      (0 + r.ret ≤ 9223372036854775807 → r.offset = 0 + r.ret)) :=
  C7_offset_advances_by_return reset_world [1, 2, 3, 4, 5, 6, 7, 8, 9, 10]
    [1, 2, 3, 4, 5, 6, 7, 8, 9, 10] 10 0 0x1000 3 3 (by decide) (by decide) (by decide)

/-- C8: a call of `_read` or `_write` that starts with `0 ≤ offset ≤ 4096` returns, for
any requested length, a count `r` with `0 ≤ r ≤ size`, and leaves an offset with
`offset ≤ new offset ≤ 4096` (the user copy obeying its contract). -/
theorem C8_offset_invariant (w : World) (p kbuf : List Nat) (size : Nat)
    (offset : Int) (dma kr kw : Nat)
    (hsize : size < 18446744073709551616) (h0 : 0 ≤ offset) (h1 : offset ≤ 4096)
    (hr : user_copy_ok (toU64 (clamp_user_len size offset)) kr)
    (hw : user_copy_ok (toU64 (clamp_user_len size offset)) kw) :
    (∃ r, _read w size offset kbuf dma kr = some r ∧
      0 ≤ r.ret ∧ r.ret ≤ (size : Int) ∧ offset ≤ r.offset ∧ r.offset ≤ 4096) ∧
    (∃ r, _write w p size offset dma kw = some r ∧
      0 ≤ r.ret ∧ r.ret ≤ (size : Int) ∧ offset ≤ r.offset ∧ r.offset ≤ 4096) := by
  obtain ⟨a1, a2, a3, a4⟩ := ret_bounds size offset kr hsize h0 h1 hr
  obtain ⟨b1, b2, b3, b4⟩ := ret_bounds size offset kw hsize h0 h1 hw
  refine ⟨⟨_, read_eq w size offset kbuf dma kr, a1, a2, ?_, ?_⟩,
    ⟨_, write_eq w p size offset dma kw, b1, b2, ?_, ?_⟩⟩
  · show offset ≤ toS64 _
    rw [a3]; omega
  · show toS64 _ ≤ 4096
    rw [a3]; exact a4
  · show offset ≤ toS64 _
    rw [b3]; omega
  · show toS64 _ ≤ 4096
    rw [b3]; exact b4

/-- C8, instance: 5000 bytes asked at offset 4000; 96 are transferred and the offset
stops at 4096. -/
theorem C8_offset_invariant_witness :
    (∃ r, _read reset_world 5000 4000 (List.replicate 96 0) 0x1000 0 = some r ∧
      0 ≤ r.ret ∧ r.ret ≤ ((5000 : Nat) : Int) ∧ 4000 ≤ r.offset ∧ r.offset ≤ 4096) ∧
    (∃ r, _write reset_world (List.replicate 5000 7) 5000 4000 0x1000 0 = some r ∧
      0 ≤ r.ret ∧ r.ret ≤ ((5000 : Nat) : Int) ∧ 4000 ≤ r.offset ∧ r.offset ≤ 4096) :=
  C8_offset_invariant reset_world (List.replicate 5000 7) (List.replicate 96 0) 5000 4000
    0x1000 0 0 (by decide) (by decide) (by decide) (by decide) (by decide)

/-! ## Arithmetic window: division by zero, offsets, reset values, read-back -/

/-- C11 (evaluation of the code): with operand_1 = 7, operand_2 = 0 and the opcode 0x02
the read at 0x20 evaluates `7 / 0` on `uint32_t`, which has no defined outcome; the
handler has no branch that guards the division. -/
theorem C11_divide_by_zero_evaluated :
    _pci_dev_mmio_read (program reset_world.dev 7 0 0x02 4 4 4) 0x20 4 = none ∧
    (program reset_world.dev 7 0 0x02 4 4 4)._operand_1 = 7 ∧
    (program reset_world.dev 7 0 0x02 4 4 4)._operand_2 = 0 ∧
    (program reset_world.dev 7 0 0x02 4 4 4)._opcode = OPCODE_DIV := by
  refine ⟨?_, ?_, ?_, ?_⟩ <;> decide

/-- C12 (evaluation of the code): while the latch is not pending, a read of the
interrupt window returns `0xffffffffffffff = 2^56 - 1` for each of the widths 1, 2, 4
and 8; for the width 8 this is not the all-ones value `2^64 - 1`, also after reduction
to 64 bits. -/
theorem C12_latch_sentinel_evaluated :
    (_pci_dev_irq_mmio_read reset_world.dev 0 1).1 = 72057594037927935 ∧
    (_pci_dev_irq_mmio_read reset_world.dev 0 2).1 = 72057594037927935 ∧
    (_pci_dev_irq_mmio_read reset_world.dev 0 4).1 = 72057594037927935 ∧
    (_pci_dev_irq_mmio_read reset_world.dev 0 8).1 = 72057594037927935 ∧
    (_pci_dev_irq_mmio_read reset_world.dev 0 8).1 % 2 ^ (8 * 8) ≠ 2 ^ (8 * 8) - 1 ∧
    reset_world.dev._set_irq = false := by
  refine ⟨?_, ?_, ?_, ?_, ?_, ?_⟩ <;> decide

/-- The read handler of the arithmetic window fails to return in exactly one case: a read
of the result register with the opcode divide and operand_2 = 0. -/
theorem mmio_read_none_iff (s : DevState) (a z : Nat) :
    _pci_dev_mmio_read s a z = none ↔ a = 0x20 ∧ s._opcode = OPCODE_DIV ∧ s._operand_2 = 0 := by
  by_cases ha : a = 0x20
  · subst ha
    constructor
    · intro h
      by_contra hc
      have hsome : (_pci_dev_mmio_read s 0x20 z).isSome = true := by
        by_cases c0 : s._opcode = 0
        · simp [_pci_dev_mmio_read, REG_OP1, REG_OP2, REG_OPCODE, REG_RESULT, OPCODE_ADD, c0]
        · by_cases c3 : s._opcode = 3
          · simp [_pci_dev_mmio_read, REG_OP1, REG_OP2, REG_OPCODE, REG_RESULT, OPCODE_ADD,
              OPCODE_SUB, c3]
          · by_cases c2 : s._opcode = 2
            · have c : s._operand_2 ≠ 0 := fun h' => hc ⟨rfl, c2, h'⟩
              simp [_pci_dev_mmio_read, REG_OP1, REG_OP2, REG_OPCODE, REG_RESULT, OPCODE_ADD,
                OPCODE_SUB, OPCODE_DIV, c2, c]
            · by_cases c1 : s._opcode = 1
              · simp [_pci_dev_mmio_read, REG_OP1, REG_OP2, REG_OPCODE, REG_RESULT, OPCODE_ADD,
                  OPCODE_SUB, OPCODE_DIV, OPCODE_MUL, c1]
              · simp [_pci_dev_mmio_read, REG_OP1, REG_OP2, REG_OPCODE, REG_RESULT, OPCODE_ADD,
                  OPCODE_SUB, OPCODE_DIV, OPCODE_MUL, c0, c1, c2, c3]
      rw [h] at hsome
      simp at hsome
    · rintro ⟨-, c2, c⟩
      simp [_pci_dev_mmio_read, REG_OP1, REG_OP2, REG_OPCODE, REG_RESULT, OPCODE_ADD,
        OPCODE_SUB, OPCODE_DIV, c2, c]
  · have hsome : (_pci_dev_mmio_read s a z).isSome = true := by
      unfold _pci_dev_mmio_read
      simp only [REG_OP1, REG_OP2, REG_OPCODE, REG_RESULT, REG_ERROR, ha, if_false]
      split_ifs <;> rfl
    constructor
    · intro h
      rw [h] at hsome
      simp at hsome
    · rintro ⟨h, -⟩
      exact absurd h ha

/-- C13, counterexample: with operand_2 = 0 and the opcode divide programmed, the read at
the offset 0x20 does not return, so there is an offset that makes a handler fail. -/
theorem C13_read_fails_counterexample :
    _pci_dev_mmio_read (program reset_world.dev 1 0 0x02 8 8 8) 0x20 8 = none ∧
    ¬ (∀ (s : DevState) (addr z : Nat), (_pci_dev_mmio_read s addr z).isSome = true) := by
  refine ⟨by decide, ?_⟩
  intro h
  have h1 := h (program reset_world.dev 1 0 0x02 8 8 8) 0x20 8
  revert h1
  decide

/-- C13, amended: in the arithmetic window, at an offset other than 0x10, 0x14, 0x18, 0x20
and 0x24 a read completes, returns the all-ones value `2^64 - 1` and leaves the device
state as it was, and a write of any value completes and leaves the device state as it
was; and at every offset the read completes unless it is the read of the result register
0x20 with the opcode divide and operand_2 = 0. -/
theorem C13_unmapped_offset (s : DevState) (addr v z : Nat)
    (h1 : addr ≠ 0x10) (h2 : addr ≠ 0x14) (h3 : addr ≠ 0x18) (h4 : addr ≠ 0x20)
    (h5 : addr ≠ 0x24) :
    _pci_dev_mmio_read s addr z = some (18446744073709551615, s) ∧
    _pci_dev_mmio_write s addr v z = s ∧
    (∀ (d : DevState) (x y : Nat),
      ¬ (x = 0x20 ∧ d._opcode = OPCODE_DIV ∧ d._operand_2 = 0) →
      (_pci_dev_mmio_read d x y).isSome = true) := by
  refine ⟨?_, ?_, ?_⟩
  · simp [_pci_dev_mmio_read, REG_OP1, REG_OP2, REG_OPCODE, REG_RESULT, REG_ERROR, ALL_ONES_64,
      h1, h2, h3, h4, h5]
  · simp [_pci_dev_mmio_write, REG_OP1, REG_OP2, REG_OPCODE, h1, h2, h3]
  · intro d x y hx
    cases hr : _pci_dev_mmio_read d x y with
    | none => exact absurd ((mmio_read_none_iff d x y).mp hr) hx
    | some r => rfl

/-- C13, instance: the offset 0x1C, between the opcode and the result register. -/
theorem C13_unmapped_offset_witness :
    _pci_dev_mmio_read reset_world.dev 0x1C 4 = some (18446744073709551615, reset_world.dev) ∧
    _pci_dev_mmio_write reset_world.dev 0x1C 5 4 = reset_world.dev ∧
    (∀ (d : DevState) (x y : Nat),
      ¬ (x = 0x20 ∧ d._opcode = OPCODE_DIV ∧ d._operand_2 = 0) →
      (_pci_dev_mmio_read d x y).isSome = true) :=
  C13_unmapped_offset reset_world.dev 0x1C 5 4 (by decide) (by decide) (by decide) (by decide)
    (by decide)

/-- C14: right after `_pci_dev_realize`, whatever the memory held before, operand_1 reads
2, operand_2 reads 4, the opcode register reads 0xAA, which is none of 0, 1, 2, 3, the
error register reads 0, the latch is not pending, and the scratch buffer is 4096 bytes
that are all 0. -/
theorem C14_reset_state (s0 : DevState) (z : Nat) :
    _pci_dev_mmio_read (_pci_dev_realize s0) 0x10 z = some (2, _pci_dev_realize s0) ∧
    _pci_dev_mmio_read (_pci_dev_realize s0) 0x14 z = some (4, _pci_dev_realize s0) ∧
    _pci_dev_mmio_read (_pci_dev_realize s0) 0x18 z = some (0xAA, _pci_dev_realize s0) ∧
    unrecognised (_pci_dev_realize s0)._opcode = true ∧
    _pci_dev_mmio_read (_pci_dev_realize s0) 0x24 z = some (0, _pci_dev_realize s0) ∧
    (_pci_dev_realize s0)._set_irq = false ∧
    (_pci_dev_realize s0)._dma_bar.length = 4096 ∧
    (∀ b ∈ (_pci_dev_realize s0)._dma_bar, b = 0) := by
  refine ⟨?_, ?_, ?_, ?_, ?_, ?_, ?_, ?_⟩
  · simp [_pci_dev_mmio_read, _pci_dev_realize, REG_OP1]
  · simp [_pci_dev_mmio_read, _pci_dev_realize, REG_OP1, REG_OP2]
  · simp [_pci_dev_mmio_read, _pci_dev_realize, REG_OP1, REG_OP2, REG_OPCODE]
  · simp [_pci_dev_realize, unrecognised, OPCODE_ADD, OPCODE_SUB, OPCODE_DIV, OPCODE_MUL]
  · simp [_pci_dev_mmio_read, _pci_dev_realize, REG_OP1, REG_OP2, REG_OPCODE, REG_RESULT,
      REG_ERROR]
  · simp [_pci_dev_realize]
  · show (List.replicate DMA_BAR_SIZE 0).length = 4096
    rw [List.length_replicate]
    rfl
  · intro b hb
    simp only [_pci_dev_realize] at hb
    exact List.eq_of_mem_replicate hb

/-- C15: a write of any `v` to operand_1 (0x10), operand_2 (0x14) or opcode (0x18)
followed by a read of the same register returns `v mod 2^32`, and the write changes that
one field of the device state and nothing else. -/
theorem C15_register_read_back (s : DevState) (v z z' : Nat) :
    _pci_dev_mmio_write s 0x10 v z = { s with _operand_1 := v % 4294967296 } ∧
    _pci_dev_mmio_read (_pci_dev_mmio_write s 0x10 v z) 0x10 z'
      = some (v % 4294967296, _pci_dev_mmio_write s 0x10 v z) ∧
    _pci_dev_mmio_write s 0x14 v z = { s with _operand_2 := v % 4294967296 } ∧
    _pci_dev_mmio_read (_pci_dev_mmio_write s 0x14 v z) 0x14 z'
      = some (v % 4294967296, _pci_dev_mmio_write s 0x14 v z) ∧
    _pci_dev_mmio_write s 0x18 v z = { s with _opcode := v % 4294967296 } ∧
    _pci_dev_mmio_read (_pci_dev_mmio_write s 0x18 v z) 0x18 z'
      = some (v % 4294967296, _pci_dev_mmio_write s 0x18 v z) := by
  refine ⟨?_, ?_, ?_, ?_, ?_, ?_⟩ <;>
    simp [_pci_dev_mmio_read, _pci_dev_mmio_write, REG_OP1, REG_OP2, REG_OPCODE]

/-! ## Frame of the arithmetic-window reads, the error register, the latch -/

set_option maxHeartbeats 1000000 in
/-- What a read of the arithmetic window leaves untouched, and what it does to the error
register. -/
theorem mmio_read_effect (s s1 : DevState) (a z v : Nat)
    (h : _pci_dev_mmio_read s a z = some (v, s1)) :
    s1._operand_1 = s._operand_1 ∧ s1._operand_2 = s._operand_2 ∧ s1._opcode = s._opcode ∧
    s1._set_irq = s._set_irq ∧ s1._dma_bar = s._dma_bar ∧ s1.irq_level = s.irq_level ∧
    s1._error = (if a = REG_RESULT ∧ unrecognised s._opcode = true then 1 else s._error) ∧
    (a ≠ REG_RESULT → s1 = s) := by
  unfold _pci_dev_mmio_read at h
  simp only [REG_OP1, REG_OP2, REG_OPCODE, REG_RESULT, REG_ERROR, OPCODE_ADD, OPCODE_SUB,
    OPCODE_DIV, OPCODE_MUL, unrecognised] at h ⊢
  split_ifs at h <;> cases h <;> refine ⟨rfl, rfl, rfl, rfl, rfl, rfl, ?_, ?_⟩
  all_goals first
    | (intro hne; first | rfl | exact absurd ‹a = 32› hne)
    | (split_ifs with hc <;> first
        | rfl
        | (exfalso; omega)
        | (exfalso; have hd := of_decide_eq_true hc.2; omega)
        | (exfalso; apply hc; refine ⟨‹a = 32›, decide_eq_true ?_⟩; omega))


/-- The effect of one transaction on the error register and on the pending flag. -/
theorem step_effect (s s1 : DevState) (t : Txn) (h : step s t = some s1) :
    s1._error = (if is_bad_result_read s t = true then 1 else s._error) ∧
    s1._set_irq =
      (if is_latch_write t then true else if is_latch_read t then false else s._set_irq) := by
  cases t with
  | mmio_read a z =>
    simp only [step, Option.map_eq_some'] at h
    obtain ⟨⟨v, s2⟩, h, rfl⟩ := h
    obtain ⟨-, -, -, h4, -, -, h7, -⟩ := mmio_read_effect s s2 a z v h
    refine ⟨?_, ?_⟩
    · simp only [is_bad_result_read, Bool.and_eq_true, decide_eq_true_eq]
      exact h7
    · simpa [is_latch_write, is_latch_read] using h4
  | mmio_write a v z =>
    simp only [step, Option.some.injEq] at h
    subst h
    simp only [is_bad_result_read, is_latch_write, is_latch_read, Bool.false_eq_true, if_false]
    unfold _pci_dev_mmio_write
    split_ifs <;> exact ⟨rfl, rfl⟩
  | dma_read a z =>
    simp only [step, Option.map_eq_some'] at h
    obtain ⟨⟨v, s2⟩, h, rfl⟩ := h
    simp only [is_bad_result_read, is_latch_write, is_latch_read, Bool.false_eq_true, if_false]
    unfold _pci_dev_dma_mmio_read at h
    split_ifs at h <;> cases h <;> exact ⟨rfl, rfl⟩
  | dma_write a v z =>
    simp only [step] at h
    simp only [is_bad_result_read, is_latch_write, is_latch_read, Bool.false_eq_true, if_false]
    unfold _pci_dev_dma_mmio_write at h
    split_ifs at h <;> cases h <;> exact ⟨rfl, rfl⟩
  | irq_read a z =>
    simp only [step, Option.some.injEq] at h
    subst h
    simp only [is_bad_result_read, is_latch_write, is_latch_read, Bool.false_eq_true, if_false,
      if_true]
    unfold _pci_dev_irq_mmio_read
    split_ifs with hp
    · exact ⟨rfl, rfl⟩
    · refine ⟨rfl, ?_⟩
      simpa using hp
  | irq_write a v z =>
    simp only [step, Option.some.injEq] at h
    subst h
    simp only [is_bad_result_read, is_latch_write, is_latch_read, Bool.false_eq_true, if_false,
      if_true]
    exact ⟨rfl, rfl⟩

/-- The error register and the pending flag after a run. -/
theorem run_effect (txs : List Txn) (s s1 : DevState) (h : run s txs = some s1) :
    s1._error = (if bad_result_read s txs = true then 1 else s._error) ∧
    s1._set_irq = pending_after s._set_irq txs := by
  induction txs generalizing s with
  | nil =>
    simp only [run, Option.some.injEq] at h
    subst h
    simp [bad_result_read, pending_after]
  | cons t ts ih =>
    simp only [run] at h
    cases hst : step s t with
    | none => simp [hst] at h
    | some s2 =>
      rw [hst] at h
      simp only [Option.some_bind] at h
      obtain ⟨e1, p1⟩ := step_effect s s2 t hst
      obtain ⟨e2, p2⟩ := ih s2 h
      refine ⟨?_, ?_⟩
      · rw [e2, e1]
        simp only [bad_result_read, hst, Bool.or_eq_true]
        by_cases hb : is_bad_result_read s t = true <;> by_cases hb2 : bad_result_read s2 ts = true <;>
          simp [hb, hb2]
      · rw [p2, p1]
        simp [pending_after]


/-- A latch transaction is a read or a write, never both. -/
theorem latch_write_not_read (t : Txn) (h : is_latch_write t = true) : is_latch_read t = false := by
  cases t <;> simp_all [is_latch_write, is_latch_read]

/-- The flag `pending_after` computes is true exactly when a latch write occurs with no
latch read after it, or the flag was true at the start and no latch read occurs. -/
theorem pending_after_iff (txs : List Txn) (b : Bool) :
    pending_after b txs = true ↔
      (∃ pre t post, txs = pre ++ t :: post ∧ is_latch_write t = true ∧
        ∀ u ∈ post, is_latch_read u = false) ∨
      (b = true ∧ ∀ u ∈ txs, is_latch_read u = false) := by
  induction txs generalizing b with
  | nil => simp [pending_after]
  | cons t ts ih =>
    rw [pending_after, ih]
    constructor
    · rintro (⟨pre, w, post, rfl, hw, hpost⟩ | ⟨hb, hts⟩)
      · exact Or.inl ⟨t :: pre, w, post, rfl, hw, hpost⟩
      · by_cases hw : is_latch_write t = true
        · exact Or.inl ⟨[], t, ts, rfl, hw, hts⟩
        · by_cases hr : is_latch_read t = true
          · simp [hw, hr] at hb
          · simp only [hw, hr, Bool.false_eq_true, if_false] at hb
            refine Or.inr ⟨hb, ?_⟩
            intro u hu
            rcases List.mem_cons.mp hu with rfl | hu
            · simpa using hr
            · exact hts u hu
    · rintro (⟨pre, w, post, heq, hw, hpost⟩ | ⟨hb, hts⟩)
      · cases pre with
        | nil =>
          simp only [List.nil_append, List.cons.injEq] at heq
          obtain ⟨rfl, rfl⟩ := heq
          exact Or.inr ⟨by simp [hw], hpost⟩
        | cons p pre =>
          simp only [List.cons_append, List.cons.injEq] at heq
          obtain ⟨rfl, rfl⟩ := heq
          exact Or.inl ⟨pre, w, post, rfl, hw, hpost⟩
      · have hr : is_latch_read t = false := hts t (List.mem_cons_self _ _)
        refine Or.inr ⟨?_, fun u hu => hts u (List.mem_cons_of_mem _ hu)⟩
        by_cases hw : is_latch_write t = true <;> simp [hw, hr, hb]

/-- After a non-empty burst of latch writes the latch is pending. -/
theorem latch_writes_pending (ws : List (Nat × Nat × Nat)) (s : DevState) (h : ws ≠ []) :
    (latch_writes s ws)._set_irq = true := by
  have key : ∀ (l : List (Nat × Nat × Nat)) (d : DevState), d._set_irq = true →
      (latch_writes d l)._set_irq = true := by
    intro l
    induction l with
    | nil => intro d hd; simpa [latch_writes] using hd
    | cons x xs ih =>
      intro d hd
      simp only [latch_writes, List.foldl_cons]
      exact ih _ rfl
  cases ws with
  | nil => exact absurd rfl h
  | cons x xs =>
    simp only [latch_writes, List.foldl_cons]
    exact key xs _ rfl

/-- C20: for every sequence of transactions on the three windows that runs from the reset
state, the latch is pending at the end exactly when the sequence contains a latch-window
write with no latch-window read after it; a transaction on the arithmetic or the
scratch-memory window leaves the pending flag as it was; and after any non-empty burst
of latch writes the first read returns 0 and the read after it returns the sentinel. -/
theorem C20_latch_state_machine (s0 s : DevState) (txs : List Txn)
    (hrun : run (_pci_dev_realize s0) txs = some s) :
    (s._set_irq = true ↔
      ∃ pre t post, txs = pre ++ t :: post ∧ is_latch_write t = true ∧
        ∀ u ∈ post, is_latch_read u = false) ∧
    (∀ (d d1 : DevState) (t : Txn), is_latch_write t = false → is_latch_read t = false →
      step d t = some d1 → d1._set_irq = d._set_irq) ∧
    (∀ (d : DevState) (ws : List (Nat × Nat × Nat)) (a z a1 z1 : Nat), ws ≠ [] →
      (_pci_dev_irq_mmio_read (latch_writes d ws) a z).1 = 0 ∧
      (_pci_dev_irq_mmio_read (_pci_dev_irq_mmio_read (latch_writes d ws) a z).2 a1 z1).1
        = SENTINEL_56) := by
  refine ⟨?_, ?_, ?_⟩
  · rw [(run_effect txs _ s hrun).2, pending_after_iff]
    simp [_pci_dev_realize]
  · intro d d1 t hw hr hst
    rw [(step_effect d d1 t hst).2]
    simp [hw, hr]
  · intro d ws a z a1 z1 hne
    have hp := latch_writes_pending ws d hne
    simp [_pci_dev_irq_mmio_read, hp]

/-- C20, instance: an operand write, two latch writes, a scratch write, a latch read and a
latch write; the latch is pending at the end. -/
theorem C20_latch_state_machine_witness :
    ((latched (_pci_dev_mmio_write reset_world.dev 0x10 7 4))._set_irq = true ↔
      ∃ pre t post,
        [Txn.mmio_write 0x10 7 4, Txn.irq_write 0 1 4, Txn.irq_write 4 2 4,
          Txn.dma_read 0 9, Txn.irq_read 0 4, Txn.irq_write 0 1 1] = pre ++ t :: post ∧
        is_latch_write t = true ∧ ∀ u ∈ post, is_latch_read u = false) :=
  (C20_latch_state_machine reset_world.dev (latched (_pci_dev_mmio_write reset_world.dev 0x10 7 4))
    [Txn.mmio_write 0x10 7 4, Txn.irq_write 0 1 4, Txn.irq_write 4 2 4,
      Txn.dma_read 0 9, Txn.irq_read 0 4, Txn.irq_write 0 1 1] (by rfl)).1


/-- C16, counterexample: from the reset state (opcode 0xAA) a read of result, then
operand_1 = 7, operand_2 = 3 and the opcode add, then a read of result, which returns 10
under a recognised opcode; the error register then reads 1, not 0. -/
theorem C16_error_stale_counterexample :
    ((_pci_dev_mmio_read reset_world.dev 0x20 4).bind
        (fun r => _pci_dev_mmio_read (program r.2 7 3 0x00 4 4 4) 0x20 4)).map Prod.fst
      = some 10 ∧
    (((_pci_dev_mmio_read reset_world.dev 0x20 4).bind
        (fun r => _pci_dev_mmio_read (program r.2 7 3 0x00 4 4 4) 0x20 4)).bind
        (fun r => _pci_dev_mmio_read r.2 0x24 4)).map Prod.fst = some 1 ∧
    unrecognised 0x00 = false := by
  refine ⟨?_, ?_, ?_⟩ <;> decide

/-- C16, amended: in every state reached from the reset state the error register is 0 or
1, and it is non-zero exactly when some read of the result register of the run was made
under an unrecognised opcode; each transaction sets it to 1 (such a read) or leaves it
as it was, so a read of result under a recognised opcode does not clear it; with
operand_1 = 7, operand_2 = 3 and the opcode add programmed right after reset, the read
of result returns 10 and leaves the error register at 0. -/
theorem C16_error_register_sticky (s0 s : DevState) (txs : List Txn)
    (hrun : run (_pci_dev_realize s0) txs = some s) :
    (s._error ≠ 0 ↔ bad_result_read (_pci_dev_realize s0) txs = true) ∧
    (s._error = 0 ∨ s._error = 1) ∧
    (∀ (d d1 : DevState) (t : Txn), step d t = some d1 →
      d1._error = if is_bad_result_read d t = true then 1 else d._error) ∧
    (∀ z1 z2 z3 z : Nat,
      (_pci_dev_mmio_read (program (_pci_dev_realize s0) 7 3 0x00 z1 z2 z3) 0x20 z).map
          (fun r => (r.1, r.2._error)) = some (10, 0)) := by
  have he := (run_effect txs _ s hrun).1
  have h0 : (_pci_dev_realize s0)._error = 0 := rfl
  rw [h0] at he
  refine ⟨?_, ?_, ?_, ?_⟩
  · rw [he]
    by_cases hb : bad_result_read (_pci_dev_realize s0) txs = true <;> simp [hb]
  · rw [he]
    by_cases hb : bad_result_read (_pci_dev_realize s0) txs = true <;> simp [hb]
  · intro d d1 t hst
    exact (step_effect d d1 t hst).1
  · intro z1 z2 z3 z
    simp [program, _pci_dev_mmio_read, _pci_dev_mmio_write, _pci_dev_realize, REG_OP1, REG_OP2,
      REG_OPCODE, REG_RESULT, OPCODE_ADD]

/-- C16, instance: a read of result under the reset opcode 0xAA, the opcode add written,
a read of result; the error register holds 1 at the end. -/
theorem C16_error_register_sticky_witness :
    (({ reset_world.dev with _opcode := 0, _result := 6, _error := 1 } : DevState)._error ≠ 0 ↔
      bad_result_read (_pci_dev_realize reset_world.dev)
        [Txn.mmio_read 0x20 4, Txn.mmio_write 0x18 0 4, Txn.mmio_read 0x20 4] = true) :=
  (C16_error_register_sticky reset_world.dev
    { reset_world.dev with _opcode := 0, _result := 6, _error := 1 }
    [Txn.mmio_read 0x20 4, Txn.mmio_write 0x18 0 4, Txn.mmio_read 0x20 4] (by rfl)).1

/-- C17 (evaluation of the code): when `io_remap_pfn_range` fails with `-ENOMEM = -12`
or `-EINVAL = -22`, `_mmap` returns 12 or 22, a positive value, and so it does for every
negative `int` above `INT_MIN`; it returns 0 exactly when the remap returns 0. -/
theorem C17_mmap_error_sign_evaluated :
    _mmap (-12) = 12 ∧ _mmap (-22) = 22 ∧ _mmap 0 = 0 ∧
    (∀ r : Int, -2147483648 < r → r < 0 → _mmap r = -r ∧ 0 < _mmap r) ∧
    (∀ r : Int, -2147483648 ≤ r → r < 2147483648 → (_mmap r = 0 ↔ r = 0)) := by
  refine ⟨by decide, by decide, by decide, ?_, ?_⟩
  · intro r h1 h2
    unfold _mmap toS32
    split <;> omega
  · intro r h1 h2
    unfold _mmap toS32
    split <;> omega

/-- C19: a read of operand_1, operand_2, opcode or error returns the stored value and
leaves the whole device state as it was; a read of result that returns changes at most
the result and error fields, leaves the error field as it was under a recognised opcode
and sets result 0 and error 1 under an unrecognised one; it fails to return exactly for
the opcode divide with operand_2 = 0. -/
theorem C19_read_frame (s : DevState) (z : Nat) :
    _pci_dev_mmio_read s 0x10 z = some (s._operand_1, s) ∧
    _pci_dev_mmio_read s 0x14 z = some (s._operand_2, s) ∧
    _pci_dev_mmio_read s 0x18 z = some (s._opcode, s) ∧
    _pci_dev_mmio_read s 0x24 z = some (s._error, s) ∧
    (∀ (v : Nat) (s1 : DevState), _pci_dev_mmio_read s 0x20 z = some (v, s1) →
      s1 = { s with _result := s1._result, _error := s1._error } ∧
      (unrecognised s._opcode = false → s1._error = s._error) ∧
      (unrecognised s._opcode = true → s1._error = 1 ∧ s1._result = 0)) ∧
    (_pci_dev_mmio_read s 0x20 z = none ↔ s._opcode = OPCODE_DIV ∧ s._operand_2 = 0) := by
  refine ⟨?_, ?_, ?_, ?_, ?_, ?_⟩
  · simp [_pci_dev_mmio_read, REG_OP1]
  · simp [_pci_dev_mmio_read, REG_OP1, REG_OP2]
  · simp [_pci_dev_mmio_read, REG_OP1, REG_OP2, REG_OPCODE]
  · simp [_pci_dev_mmio_read, REG_OP1, REG_OP2, REG_OPCODE, REG_RESULT, REG_ERROR]
  · intro v s1 h
    obtain ⟨h1, h2, h3, h4, h5, h6, h7, -⟩ := mmio_read_effect s s1 0x20 z v h
    refine ⟨?_, ?_, ?_⟩
    · cases s1
      cases s
      simp_all
    · intro hu
      rw [h7]
      simp [hu]
    · intro hu
      refine ⟨by rw [h7]; simp [hu, REG_RESULT], ?_⟩
      unfold _pci_dev_mmio_read at h
      simp only [unrecognised, decide_eq_true_eq] at hu
      obtain ⟨u1, u2, u3, u4⟩ := hu
      simp [REG_OP1, REG_OP2, REG_OPCODE, REG_RESULT, u1, u2, u3, u4] at h
      rw [← h.2]
  · constructor
    · intro h
      by_contra hc
      have hsome : (_pci_dev_mmio_read s 0x20 z).isSome = true := by
        by_cases c0 : s._opcode = 0
        · simp [_pci_dev_mmio_read, REG_OP1, REG_OP2, REG_OPCODE, REG_RESULT, OPCODE_ADD, c0]
        · by_cases c3 : s._opcode = 3
          · simp [_pci_dev_mmio_read, REG_OP1, REG_OP2, REG_OPCODE, REG_RESULT, OPCODE_ADD,
              OPCODE_SUB, c3]
          · by_cases c2 : s._opcode = 2
            · have c : s._operand_2 ≠ 0 := fun h' => hc ⟨c2, h'⟩
              simp [_pci_dev_mmio_read, REG_OP1, REG_OP2, REG_OPCODE, REG_RESULT, OPCODE_ADD,
                OPCODE_SUB, OPCODE_DIV, c2, c]
            · by_cases c1 : s._opcode = 1
              · simp [_pci_dev_mmio_read, REG_OP1, REG_OP2, REG_OPCODE, REG_RESULT, OPCODE_ADD,
                  OPCODE_SUB, OPCODE_DIV, OPCODE_MUL, c1]
              · simp [_pci_dev_mmio_read, REG_OP1, REG_OP2, REG_OPCODE, REG_RESULT, OPCODE_ADD,
                  OPCODE_SUB, OPCODE_DIV, OPCODE_MUL, c0, c1, c2, c3]
      rw [h] at hsome
      simp at hsome
    · rintro ⟨c2, c⟩
      simp [_pci_dev_mmio_read, REG_OP1, REG_OP2, REG_OPCODE, REG_RESULT, OPCODE_ADD,
        OPCODE_SUB, OPCODE_DIV, c2, c]

/-! ## Short write -/

/-- The computed length is an `int`. -/
theorem clamp_user_len_range (size : Nat) (offset : Int) :
    -2147483648 ≤ clamp_user_len size offset ∧ clamp_user_len size offset < 2147483648 := by
  unfold clamp_user_len toS32
  split <;> omega

/-- C18, counterexample: `_write` of 1 byte at the offset `2^63 - 2` with nothing left
uncopied (`k = 0`, clamped length 4098) returns 4098, and the offset after the call is
`-2^63 + 4096`: the offset did not advance by 4098. -/
theorem C18_short_write_counterexample :
    clamp_user_len 1 9223372036854775806 = 4098 ∧
    (_write reset_world (List.replicate 4098 7) 1 9223372036854775806 0x1000 0).map IoResult.ret
      = some 4098 ∧
    (_write reset_world (List.replicate 4098 7) 1 9223372036854775806 0x1000 0).map
        IoResult.offset = some (-9223372036854771712) ∧
    (-9223372036854771712 : Int) - 9223372036854775806 ≠ 4098 - 0 := by
  simp only [write_eq, Option.map]
  refine ⟨?_, ?_, ?_, ?_⟩ <;> decide

/-- C18, amended: in every `_write` call in which the copy from the caller leaves `k`
bytes uncopied, `0 ≤ k ≤ clamped length`, the length written to the length register and
the value returned are both `clamped length - k`, that many bytes of the caller are in
the transfer buffer, and the offset advances by `clamped length - k` whenever the offset
before plus that amount is at most `2^63 - 1`. -/
theorem C18_short_write (w : World) (p : List Nat) (size : Nat) (offset : Int) (dma k : Nat)
    (hlo : -9223372036854775808 ≤ offset)
    (hk : (k : Int) ≤ clamp_user_len size offset) :
    ∃ r, _write w p size offset dma k = some r ∧
      r.ret = clamp_user_len size offset - (k : Int) ∧
      r.world.trace = w.trace ++
        [{ bar := .bar2, reg := 0x0C, val := (clamp_user_len size offset - (k : Int)).toNat },
         { bar := .bar2, reg := 0x04, val := dma % 4294967296 },
         { bar := .bar2, reg := 0x08, val := toU32 offset },
         { bar := .bar2, reg := 0x00, val := 1 }] ∧
      r.data = p.take (clamp_user_len size offset - (k : Int)).toNat ∧
      (offset + (clamp_user_len size offset - (k : Int)) ≤ 9223372036854775807 →
        r.offset - offset = clamp_user_len size offset - (k : Int)) := by
  obtain ⟨c1, c2⟩ := clamp_user_len_range size offset
  have e1 : toS32 (clamp_user_len size offset - toS32 (k : Int))
      = clamp_user_len size offset - (k : Int) := by
    unfold toS32; omega
  have e2 : toU32 (clamp_user_len size offset - (k : Int))
      = (clamp_user_len size offset - (k : Int)).toNat := by
    unfold toU32; omega
  have e3 : toU64 (clamp_user_len size offset) - k
      = (clamp_user_len size offset - (k : Int)).toNat := by
    unfold toU64; omega
  refine ⟨_, write_eq w p size offset dma k, ?_, ?_, ?_, ?_⟩
  · exact e1
  · simp only [e1, writes_to_device, e2, toU64_mod_u32]
  · simp only [e3]
  · intro hfit
    show toS64 (offset + toS32 _) - offset = _
    rw [e1]
    unfold toS64; omega

/-- C18, instance: 10 bytes written at offset 0 with 3 bytes left uncopied; 7 is
programmed, returned and added to the offset. -/
theorem C18_short_write_witness :
    ∃ r, _write reset_world [1, 2, 3, 4, 5, 6, 7, 8, 9, 10] 10 0 0x1000 3 = some r ∧
      r.ret = clamp_user_len 10 0 - ((3 : Nat) : Int) ∧
      r.world.trace = reset_world.trace ++
        [{ bar := .bar2, reg := 0x0C, val := (clamp_user_len 10 0 - ((3 : Nat) : Int)).toNat },
         { bar := .bar2, reg := 0x04, val := 0x1000 % 4294967296 },
         { bar := .bar2, reg := 0x08, val := toU32 0 },
         { bar := .bar2, reg := 0x00, val := 1 }] ∧
      r.data = [1, 2, 3, 4, 5, 6, 7, 8, 9, 10].take (clamp_user_len 10 0 - ((3 : Nat) : Int)).toNat ∧
      (0 + (clamp_user_len 10 0 - ((3 : Nat) : Int)) ≤ 9223372036854775807 →
        r.offset - 0 = clamp_user_len 10 0 - ((3 : Nat) : Int)) :=
  C18_short_write reset_world [1, 2, 3, 4, 5, 6, 7, 8, 9, 10] 10 0 0x1000 3 (by decide)
    (by decide)

/-! ## Scratch-memory window -/

/-- A store of width `n` writes `n` bytes. -/
theorem le_bytes_length (n v : Nat) : (le_bytes n v).length = n := by
  induction n generalizing v with
  | zero => rfl
  | succ n ih => simp [le_bytes, ih]

/-- Loading the bytes that a store of width `n` wrote gives the value reduced to `8n` bits. -/
theorem le_value_le_bytes (n v : Nat) : le_value (le_bytes n v) = v % 256 ^ n := by
  induction n generalizing v with
  | zero => simp [le_bytes, le_value, Nat.mod_one]
  | succ n ih =>
    simp only [le_bytes, le_value, ih]
    rw [pow_succ', Nat.mod_mul]

/-- A store inside the buffer keeps the buffer's length. -/
theorem store_bytes_length (mem bs : List Nat) (a : Nat) (h : a + bs.length ≤ mem.length) :
    (store_bytes mem a bs).length = mem.length := by
  simp only [store_bytes, List.length_append, List.length_take, List.length_drop]
  omega

/-- The bytes found at the place of a store are the bytes stored. -/
theorem store_bytes_read_back (mem bs : List Nat) (a : Nat) (h : a + bs.length ≤ mem.length) :
    ((store_bytes mem a bs).drop a).take bs.length = bs := by
  have ha : (mem.take a).length = a := by
    rw [List.length_take]; omega
  unfold store_bytes
  rw [List.append_assoc, List.drop_left' ha, List.take_left' rfl]

/-- A store leaves every byte outside its range as it was. -/
theorem store_bytes_outside (mem bs : List Nat) (a i : Nat) (h : a + bs.length ≤ mem.length)
    (hi : i < a ∨ a + bs.length ≤ i) :
    (store_bytes mem a bs)[i]? = mem[i]? := by
  have ha : (mem.take a).length = a := by
    rw [List.length_take]; omega
  unfold store_bytes
  rcases hi with hi | hi
  · rw [List.append_assoc, List.getElem?_append_left (by omega), List.getElem?_take_of_lt hi]
  · rw [List.getElem?_append_right (by simp only [List.length_append, ha]; omega)]
    simp only [List.length_append, ha, List.getElem?_drop]
    congr 1
    omega


/-- Byte `j` of a store of `v` is `v / 256^j mod 256`. -/
theorem le_bytes_getElem (n v j : Nat) (hj : j < n) :
    (le_bytes n v)[j]? = some (v / 256 ^ j % 256) := by
  induction n generalizing v j with
  | zero => omega
  | succ n ih =>
    cases j with
    | zero => simp [le_bytes]
    | succ j =>
      simp only [le_bytes, List.getElem?_cons_succ]
      rw [ih (v / 256) j (by omega), Nat.div_div_eq_div_mul, pow_succ']

/-- Byte `a + j` after a store at `a` is byte `j` of what was stored. -/
theorem store_bytes_inside (mem bs : List Nat) (a j : Nat) (h : a + bs.length ≤ mem.length)
    (hj : j < bs.length) :
    (store_bytes mem a bs)[a + j]? = bs[j]? := by
  have ha : (mem.take a).length = a := by
    rw [List.length_take]; omega
  unfold store_bytes
  rw [List.append_assoc, List.getElem?_append_right (by omega), ha,
    List.getElem?_append_left (by omega)]
  congr 1
  omega

/-- The scratch buffer of the reset state has 4096 bytes. -/
theorem realize_dma_bar_length (s0 : DevState) : (_pci_dev_realize s0)._dma_bar.length = 4096 := by
  show (List.replicate DMA_BAR_SIZE 0).length = 4096
  rw [List.length_replicate]
  rfl

/-- C21: on a device whose scratch buffer has its 4096 bytes, for a width `w` of 1, 2, 4
or 8 and an offset `a` with `a + w ≤ 4096`, `_pci_dev_dma_mmio_write` of `v` completes,
the `_pci_dev_dma_mmio_read` at the same offset and width that follows returns
`v mod 2^(8w)`, the write changes no field but the scratch buffer, the buffer keeps its
4096 bytes, every byte outside `a .. a+w-1` is what it was, and the bytes inside are the
little-endian bytes of `v`. -/
theorem C21_scratch_read_back (s : DevState) (a v w : Nat)
    (hlen : s._dma_bar.length = 4096)
    (hw : w = 1 ∨ w = 2 ∨ w = 4 ∨ w = 8) (ha : a + w ≤ 4096) :
    ∃ s1, _pci_dev_dma_mmio_write s a v w = some s1 ∧
      _pci_dev_dma_mmio_read s1 a w = some (v % 2 ^ (8 * w), s1) ∧
      s1 = { s with _dma_bar := s1._dma_bar } ∧
      s1._dma_bar.length = 4096 ∧
      (∀ i, (i < a ∨ a + w ≤ i) → s1._dma_bar[i]? = s._dma_bar[i]?) ∧
      (∀ j, j < w → s1._dma_bar[a + j]? = some (v / 256 ^ j % 256)) := by
  have hb : (le_bytes w v).length = w := le_bytes_length w v
  have hfit : a + (le_bytes w v).length ≤ s._dma_bar.length := by rw [hb, hlen]; exact ha
  have hl1 : (store_bytes s._dma_bar a (le_bytes w v)).length = 4096 := by
    rw [store_bytes_length _ _ _ hfit, hlen]
  have hpow : (256 : Nat) ^ w = 2 ^ (8 * w) := by
    rw [pow_mul]; norm_num
  refine ⟨{ s with _dma_bar := store_bytes s._dma_bar a (le_bytes w v) }, ?_, ?_, rfl, hl1, ?_, ?_⟩
  · unfold _pci_dev_dma_mmio_write
    rw [if_pos hw, if_pos (by rw [hlen]; exact ha)]
  · unfold _pci_dev_dma_mmio_read
    rw [if_pos hw, if_pos (by show a + w ≤ (store_bytes _ _ _).length; rw [hl1]; exact ha)]
    have hrb := store_bytes_read_back s._dma_bar (le_bytes w v) a hfit
    rw [hb] at hrb
    show some (le_value (((store_bytes s._dma_bar a (le_bytes w v)).drop a).take w), _) = _
    rw [hrb, le_value_le_bytes, hpow]
  · intro i hi
    exact store_bytes_outside s._dma_bar (le_bytes w v) a i hfit (by rw [hb]; exact hi)
  · intro j hj
    show (store_bytes s._dma_bar a (le_bytes w v))[a + j]? = _
    rw [store_bytes_inside _ _ _ _ hfit (by rw [hb]; exact hj), le_bytes_getElem w v j hj]

/-- C21, instance: a 4-byte write of `0x1122334455` at the last aligned offset 4092 of the
reset state; the read returns `0x22334455`. -/
theorem C21_scratch_read_back_witness :
    ∃ s1, _pci_dev_dma_mmio_write reset_world.dev 4092 0x1122334455 4 = some s1 ∧
      _pci_dev_dma_mmio_read s1 4092 4 = some (0x1122334455 % 2 ^ (8 * 4), s1) ∧
      s1 = { reset_world.dev with _dma_bar := s1._dma_bar } ∧
      s1._dma_bar.length = 4096 ∧
      (∀ i, (i < 4092 ∨ 4092 + 4 ≤ i) → s1._dma_bar[i]? = reset_world.dev._dma_bar[i]?) ∧
      (∀ j, j < 4 → s1._dma_bar[4092 + j]? = some (0x1122334455 / 256 ^ j % 256)) :=
  C21_scratch_read_back reset_world.dev 4092 0x1122334455 4 (realize_dma_bar_length _)
    (by decide) (by decide)

/-! ## Invalid direction, and the window the driver programs -/

/-- C22: for a direction code other than 0 and 1, `_dma_transfer` returns after one
register write, the one to the length register 0x0C: no write goes to the command
register 0x00, to the source register 0x04 or to the destination register 0x08, and the
scratch buffer of the device is what it was; `_read` calls `_dma_transfer` with the
direction 1 and `_write` with the direction 0, and both reach the command write. -/
theorem C22_invalid_direction (w : World) (dma : Nat) (len : Int) (address dir : Nat)
    (p kbuf : List Nat) (size : Nat) (offset : Int) (k : Nat)
    (h1 : dir ≠ 1) (h0 : dir ≠ 0) :
    (∃ w1, _dma_transfer w dma len address dir = some (0, w1) ∧
      w1.trace = w.trace ++ [{ bar := .bar2, reg := 0x0C, val := toU32 len }] ∧
      (∀ x ∈ w1.trace.drop w.trace.length,
        x.reg ≠ DMA_REG_CMD ∧ x.reg ≠ DMA_REG_SRC ∧ x.reg ≠ DMA_REG_DST) ∧
      w1.dev._dma_bar = w.dev._dma_bar) ∧
    DMA_DIRECTION_FROM_DEVICE = 1 ∧ DMA_DIRECTION_TO_DEVICE = 0 ∧
    (_read w size offset kbuf dma k).map IoResult.world
      = (_dma_transfer w dma (clamp_user_len size offset) (toU64 offset) 1).map Prod.snd ∧
    (_write w p size offset dma k).map IoResult.world
      = (_dma_transfer w dma (toS32 (clamp_user_len size offset - toS32 (k : Int)))
          (toU64 offset) 0).map Prod.snd ∧
    (_read w size offset kbuf dma k).map (fun r => r.world.trace.getLast?)
      = some (some { bar := .bar2, reg := 0x00, val := 3 }) ∧
    (_write w p size offset dma k).map (fun r => r.world.trace.getLast?)
      = some (some { bar := .bar2, reg := 0x00, val := 1 }) := by
  refine ⟨⟨_, dma_transfer_other w dma len address dir h1 h0, rfl, ?_, rfl⟩, rfl, rfl, ?_, ?_,
    ?_, ?_⟩
  · intro x hx
    simp only [List.drop_left, List.mem_singleton] at hx
    subst hx
    simp [DMA_REG_CMD, DMA_REG_SRC, DMA_REG_DST]
  · simp [read_eq, dma_transfer_from_device]
  · simp [write_eq, dma_transfer_to_device]
  · simp [read_eq, writes_from_device]
  · simp [write_eq, writes_to_device]

/-- C22, instance: the direction code 2 on the reset state. -/
theorem C22_invalid_direction_witness :
    ∃ w1, _dma_transfer reset_world 0x1000 16 0 2 = some (0, w1) ∧
      w1.trace = reset_world.trace ++ [{ bar := .bar2, reg := 0x0C, val := toU32 16 }] ∧
      (∀ x ∈ w1.trace.drop reset_world.trace.length,
        x.reg ≠ DMA_REG_CMD ∧ x.reg ≠ DMA_REG_SRC ∧ x.reg ≠ DMA_REG_DST) ∧
      w1.dev._dma_bar = reset_world.dev._dma_bar :=
  (C22_invalid_direction reset_world 0x1000 16 0 2 [] [] 0 0 0 (by decide) (by decide)).1

/-- C23: every register write of `_dma_transfer`, whatever the direction code, is a write
to region 2, and a write to region 2 is handled by the write handler of the
interrupt-latch window; so `_read` and `_write` always return and leave the latch
pending, while the scratch buffer, operand_1, operand_2, opcode, result and error of the
device are what they were before the call. -/
theorem C23_window_pairing (w : World) (dma : Nat) (len : Int) (address dir : Nat)
    (p kbuf : List Nat) (size : Nat) (offset : Int) (k : Nat) :
    (∃ ws, _dma_transfer w dma len address dir
        = some (0, { dev := latched w.dev, trace := w.trace ++ ws }) ∧
      ∀ x ∈ ws, x.bar = Bar.bar2) ∧
    (∀ (s : DevState) (a v z : Nat),
      region_write .bar2 s a v z = some (_pci_dev_irq_mmio_write s a v z)) ∧
    (∃ r, _read w size offset kbuf dma k = some r ∧
      r.world.dev._set_irq = true ∧
      r.world.dev._dma_bar = w.dev._dma_bar ∧
      r.world.dev._operand_1 = w.dev._operand_1 ∧
      r.world.dev._operand_2 = w.dev._operand_2 ∧
      r.world.dev._opcode = w.dev._opcode ∧
      r.world.dev._result = w.dev._result ∧
      r.world.dev._error = w.dev._error) ∧
    (∃ r, _write w p size offset dma k = some r ∧
      r.world.dev._set_irq = true ∧
      r.world.dev._dma_bar = w.dev._dma_bar ∧
      r.world.dev._operand_1 = w.dev._operand_1 ∧
      r.world.dev._operand_2 = w.dev._operand_2 ∧
      r.world.dev._opcode = w.dev._opcode ∧
      r.world.dev._result = w.dev._result ∧
      r.world.dev._error = w.dev._error) := by
  refine ⟨?_, ?_, ⟨_, read_eq w size offset kbuf dma k, rfl, rfl, rfl, rfl, rfl, rfl, rfl⟩,
    ⟨_, write_eq w p size offset dma k, rfl, rfl, rfl, rfl, rfl, rfl, rfl⟩⟩
  · by_cases h1 : dir = 1
    · subst h1
      refine ⟨_, dma_transfer_from_device w dma len address, ?_⟩
      intro x hx
      simp only [writes_from_device, List.mem_cons, List.mem_singleton, List.not_mem_nil,
        or_false] at hx
      rcases hx with rfl | rfl | rfl | rfl <;> rfl
    · by_cases h0 : dir = 0
      · subst h0
        refine ⟨_, dma_transfer_to_device w dma len address, ?_⟩
        intro x hx
        simp only [writes_to_device, List.mem_cons, List.mem_singleton, List.not_mem_nil,
          or_false] at hx
        rcases hx with rfl | rfl | rfl | rfl <;> rfl
      · refine ⟨_, dma_transfer_other w dma len address dir h1 h0, ?_⟩
        intro x hx
        simp only [List.mem_singleton] at hx
        subst hx
        rfl
  · intro s a v z
    rfl

end CPciDev
